import Mathlib

set_option linter.unusedVariables false

/-!
Verification development for the RPG companion prompt builder
(source: src/src/systems/generation/promptBuilder.js).

The JavaScript values flowing through the tracker pipeline are modelled by
the inductive type JVal below.  JavaScript numbers are modelled as integers
(every value exercised by the specification is integral); object fields are
kept as an ordered association list with distinct keys, mirroring insertion
order of the JSON payloads.  Functions that can raise a TypeError in
JavaScript are modelled in the Option monad, none standing for a thrown
exception that an enclosing try/catch converts to the empty string.
-/

/-- Model of a JavaScript value as seen by the prompt builder. -/
inductive JVal where
  | vnull
  | vundefined
  | vbool (b : Bool)
  | vnum (n : Int)
  | vstr (s : String)
  | varr (elems : List JVal)
  | vobj (fields : List (String × JVal))

/-- Association-list lookup used to model JavaScript property access
(object keys are unique, so first match is the property). -/
def lookupKey : List (String × JVal) → String → Option JVal
  | [], _ => none
  | (k, v) :: rest, key => if k = key then some v else lookupKey rest key

theorem lookupKey_mem {fields : List (String × JVal)} {key : String} {v : JVal}
    (h : lookupKey fields key = some v) : (key, v) ∈ fields := by
  induction fields with
  | nil => simp [lookupKey] at h
  | cons p rest ih =>
    obtain ⟨k, w⟩ := p
    by_cases hk : k = key
    · subst hk
      simp [lookupKey] at h
      subst h
      exact List.mem_cons_self _ _
    · simp [lookupKey, hk] at h
      exact List.mem_cons_of_mem _ (ih h)

theorem sizeOf_snd_lt {fields : List (String × JVal)} {k : String} {v : JVal}
    (h : (k, v) ∈ fields) : sizeOf v < 1 + sizeOf fields := by
  have h1 := List.sizeOf_lt_of_mem h
  simp only [Prod.mk.sizeOf_spec] at h1
  omega

theorem sizeOf_lookupKey_lt {fields : List (String × JVal)} {key : String} {v : JVal}
    (h : lookupKey fields key = some v) : sizeOf v < 1 + sizeOf fields :=
  sizeOf_snd_lt (lookupKey_mem h)

theorem sizeOf_mem_arr_lt {elems : List JVal} {x : JVal} (h : x ∈ elems) :
    sizeOf x < 1 + sizeOf elems := by
  have h1 := List.sizeOf_lt_of_mem h
  omega

/-- JavaScript truthiness for the modelled values (NaN is not modelled). -/
def truthy : JVal → Bool
  | .vnull => false
  | .vundefined => false
  | .vbool b => b
  | .vnum n => n != 0
  | .vstr s => s != ""
  | .varr _ => true
  | .vobj _ => true

/-- Property access v[k] on a value that is not null/undefined: objects look
the key up, every other value yields undefined.  Access on null or undefined
throws in JavaScript and is handled at each call site. -/
def jget : JVal → String → JVal
  | .vobj fields, k => (lookupKey fields k).getD .vundefined
  | _, _ => .vundefined

/-- Model of Object.entries: object fields in order, array elements with
stringified indices, empty for primitives. -/
def jsEntries : JVal → List (String × JVal)
  | .vobj fields => fields
  | .varr elems => (elems.enum).map (fun p => (toString p.1, p.2))
  | _ => []

/-- Field value resolver of formatTrackerDataForContext
(promptBuilder.js lines 468-544).  Priority order is exactly the order of
the JavaScript checks: null/undefined, locked wrapper, scalar, array, then
the compound shapes mood / name / title / start-end / emoji-forecast and
the generic 1-3 key fallback.  A quantity that is not a number is treated
as not greater than one. -/
def getValue : JVal → String
  | .vnull => ""
  | .vundefined => ""
  | .vbool b => toString b
  | .vnum n => toString n
  | .vstr s => s
  | .varr elems =>
      String.intercalate ", "
        ((elems.attach.map (fun p => getValue p.1)).filter (fun s => s != ""))
  | .vobj fields =>
      match hval : lookupKey fields "value" with
      | some v => getValue v
      | none =>
        match hmood : lookupKey fields "mood" with
        | some m =>
            let moodS := getValue m
            let others := fields.attach.filterMap (fun p =>
              if p.1.1 = "mood" then none
              else
                let fv := getValue p.1.2
                if fv ≠ "" ∧ fv ≠ "None" then some fv else none)
            String.intercalate " - " (if moodS = "" then others else moodS :: others)
        | none =>
          match hname : lookupKey fields "name" with
          | some nm =>
              let nameS := getValue nm
              (match lookupKey fields "quantity" with
               | some (.vnum q) =>
                   if 1 < q then nameS ++ " (x" ++ toString q ++ ")" else nameS
               | _ => nameS)
          | none =>
            match htitle : lookupKey fields "title" with
            | some t => getValue t
            | none =>
              match hs : lookupKey fields "start", he : lookupKey fields "end" with
              | some s, some e => getValue s ++ " - " ++ getValue e
              | _, _ =>
                match hem : lookupKey fields "emoji", hfo : lookupKey fields "forecast" with
                | some em, some fo => getValue em ++ " " ++ getValue fo
                | _, _ =>
                  let pairs := fields.attach.filterMap (fun p =>
                    let fv := getValue p.1.2
                    if fv = "" then none else some (p.1.1 ++ ": " ++ fv))
                  if 0 < fields.length ∧ fields.length ≤ 3 ∧ pairs ≠ [] then
                    String.intercalate ", " pairs
                  else ""
termination_by v => sizeOf v
decreasing_by
  all_goals simp_wf
  all_goals first
  | exact sizeOf_lookupKey_lt hval
  | exact sizeOf_lookupKey_lt hmood
  | exact sizeOf_lookupKey_lt hname
  | exact sizeOf_lookupKey_lt htitle
  | exact sizeOf_lookupKey_lt hs
  | exact sizeOf_lookupKey_lt he
  | exact sizeOf_lookupKey_lt hem
  | exact sizeOf_lookupKey_lt hfo
  | exact sizeOf_mem_arr_lt p.2
  | (obtain ⟨⟨k, v⟩, hmem⟩ := p
     exact sizeOf_snd_lt hmem)

/-- Field value resolver of formatHistoricalTrackerData
(promptBuilder.js lines 809-839).  Same wrapper/scalar/array handling, but
the compound shapes are checked in the order start-end, emoji-forecast,
name, title, and there is no mood case and no generic fallback. -/
def getValueH : JVal → String
  | .vnull => ""
  | .vundefined => ""
  | .vbool b => toString b
  | .vnum n => toString n
  | .vstr s => s
  | .varr elems =>
      String.intercalate ", "
        ((elems.attach.map (fun p => getValueH p.1)).filter (fun s => s != ""))
  | .vobj fields =>
      match hval : lookupKey fields "value" with
      | some v => getValueH v
      | none =>
        match hs : lookupKey fields "start", he : lookupKey fields "end" with
        | some s, some e => getValueH s ++ " - " ++ getValueH e
        | _, _ =>
          match hem : lookupKey fields "emoji", hfo : lookupKey fields "forecast" with
          | some em, some fo => getValueH em ++ " " ++ getValueH fo
          | _, _ =>
            match hname : lookupKey fields "name" with
            | some nm =>
                let nameS := getValueH nm
                (match lookupKey fields "quantity" with
                 | some (.vnum q) =>
                     if 1 < q then nameS ++ " (x" ++ toString q ++ ")" else nameS
                 | _ => nameS)
            | none =>
              match htitle : lookupKey fields "title" with
              | some t => getValueH t
              | none => ""
termination_by v => sizeOf v
decreasing_by
  all_goals simp_wf
  all_goals first
  | exact sizeOf_lookupKey_lt hval
  | exact sizeOf_lookupKey_lt hname
  | exact sizeOf_lookupKey_lt htitle
  | exact sizeOf_lookupKey_lt hs
  | exact sizeOf_lookupKey_lt he
  | exact sizeOf_lookupKey_lt hem
  | exact sizeOf_lookupKey_lt hfo
  | exact sizeOf_mem_arr_lt p.2

/-- Check for the two nullish JavaScript values. -/
def isNullish : JVal → Bool
  | .vnull => true
  | .vundefined => true
  | _ => false

/-- Template-literal stringification (the JavaScript String conversion used
by backtick interpolation): arrays join their elements with commas, with
null and undefined elements rendered empty; plain objects render as the
usual object tag. -/
def jsToString : JVal → String
  | .vnull => "null"
  | .vundefined => "undefined"
  | .vbool b => toString b
  | .vnum n => toString n
  | .vstr s => s
  | .varr elems =>
      String.intercalate ","
        (elems.attach.map (fun p => if isNullish p.1 then "" else jsToString p.1))
  | .vobj _ => "[object Object]"
termination_by v => sizeOf v
decreasing_by
  all_goals simp_wf
  all_goals exact sizeOf_mem_arr_lt p.2

/-- Model of the JavaScript idiom x || d for strings (empty string is falsy). -/
def jsDefaultStr (o : Option String) (d : String) : String :=
  match o with
  | some s => if s = "" then d else s
  | none => d

/-- Model of charAt(0).toUpperCase() + slice(1). -/
def capitalizeJS (s : String) : String :=
  match s.data with
  | [] => ""
  | c :: rest => String.mk (c.toUpper :: rest)

/-- Model of replace([A-Z] regex, space and the match). -/
def insertSpacesBeforeUpper (s : String) : String :=
  String.mk (s.data.foldr (fun c acc => if c.isUpper then ' ' :: c :: acc else c :: acc) [])

/-- Model of the JavaScript string trim method: removal of leading and
trailing whitespace, computed structurally over the character list. -/
def jsTrim (s : String) : String :=
  String.mk (((s.data.dropWhile Char.isWhitespace).reverse.dropWhile Char.isWhitespace).reverse)

/-- Model of slice(0, -n): removal of the last n characters. -/
def jsDropRight (s : String) (n : Nat) : String :=
  String.mk (s.data.take (s.data.length - n))

/-- Conversion of a camelCase identifier to a spaced capitalized label
(promptBuilder.js lines 697-700). -/
def labelize (k : String) : String :=
  jsTrim (capitalizeJS (insertSpacesBeforeUpper k))

/-- Model of replace of underscores by spaces. -/
def underscoresToSpaces (s : String) : String :=
  String.mk (s.data.map (fun c => if c = '_' then ' ' else c))

/-- Conversion of a camelCase or snake_case identifier to a spaced
capitalized label (promptBuilder.js lines 718-722). -/
def labelizeUnderscore (k : String) : String :=
  jsTrim (capitalizeJS (insertSpacesBeforeUpper (underscoresToSpaces k)))

/-- Fixed stat field order of the flat userStats fallback
(promptBuilder.js line 580). -/
def statFieldOrder : List String :=
  ["health", "mana", "stamina", "satiety", "hygiene", "energy", "arousal"]

/-- Special field names excluded from the custom numeric stat loop
(promptBuilder.js line 581). -/
def specialFields : List String :=
  ["status", "mood", "skills", "inventory", "quests"]

/-- Per-stat display configuration entry of trackerConfig userStats
customStats (external settings shape). -/
structure CustomStatCfg where
  id : String
  maxValue : Option Int := none
  name : Option String := none
  enabled : Option Bool := none
  persistInHistory : Option Bool := none

/-- Slice of trackerConfig userStats read by formatTrackerDataForContext
(statsDisplayMode and customStats, promptBuilder.js lines 550-552). -/
structure UserStatsCfgCtx where
  statsDisplayMode : Option String := none
  customStats : Option (List CustomStatCfg) := none

/-- Strict equality test of a configured stat id (a settings string)
against a data-side id value, modelling s.id === statId. -/
def idMatches (cfgId : String) : JVal → Bool
  | .vstr s => s = cfgId
  | _ => false

/-- Split of a string into its newline-separated lines (used to state
that an output contains a given line). -/
def splitLines (s : String) : List String :=
  (s.data.splitOn '\n').map String.mk

/-- Raw category payload as received by formatTrackerDataForContext:
falsy (null, undefined or empty string), a truthy string on which
JSON.parse throws, or the parsed value (also covering a truthy non-string
passed through unchanged). -/
inductive TrackerInput where
  | empty
  | malformed (s : String)
  | parsed (v : JVal)

/-- Stat name resolution of the stats-array loop (promptBuilder.js
line 573): stat.name if truthy, else the capitalized stat.id (charAt
throws on a truthy non-string id), else the literal Unknown. -/
def statNameOf (stat : JVal) : Option JVal :=
  if truthy (jget stat "name") then some (jget stat "name")
  else if truthy (jget stat "id") then
    match jget stat "id" with
    | .vstr s => some (.vstr (capitalizeJS s))
    | _ => none
  else some (.vstr "Unknown")

/-- Stat id resolution (promptBuilder.js line 574): stat.id if truthy,
else the lowercased stat name (toLowerCase throws on a non-string). -/
def statIdOf (stat statName : JVal) : Option JVal :=
  if truthy (jget stat "id") then some (jget stat "id")
  else
    match statName with
    | .vstr s => some (.vstr s.toLower)
    | _ => none

/-- Flat userStats fallback (promptBuilder.js lines 579-599): the fixed
stat fields in order, then the remaining numeric custom fields. -/
def flatStatsPart (data : JVal) (formatStatValue : JVal → JVal → String) : String :=
  let ordered := statFieldOrder.foldl (fun acc statName =>
    match jget data statName with
    | .vundefined => acc
    | dv =>
        let value := getValue dv
        if value = "" then acc
        else acc ++ capitalizeJS statName ++ ": " ++
          formatStatValue (.vstr value) (.vstr statName) ++ "\n") ""
  let custom := (jsEntries data).foldl (fun acc kv =>
    if statFieldOrder.contains kv.1 || specialFields.contains kv.1 then acc
    else
      match kv.2 with
      | .vnum n => acc ++ capitalizeJS kv.1 ++ ": " ++
          formatStatValue (.vstr (getValue (.vnum n))) (.vstr kv.1) ++ "\n"
      | _ => acc) ""
  ordered ++ custom

/-- The userStats branch of formatTrackerDataForContext (promptBuilder.js
lines 546-681).  Returns none where the JavaScript body would throw a
TypeError (property access on a null payload, charAt or toLowerCase on a
non-string): the enclosing catch turns that into the empty string. -/
def fmtUserStats (data : JVal) (userName : String) (cfg? : Option UserStatsCfgCtx) :
    Option String :=
  if isNullish data then none
  else
    let displayMode := jsDefaultStr (cfg?.bind (fun c => c.statsDisplayMode)) "percentage"
    let customStats := (cfg?.bind (fun c => c.customStats)).getD []
    let getMaxValue : JVal → Int := fun statId =>
      match customStats.find? (fun s => idMatches s.id statId) with
      | some sc =>
          match sc.maxValue with
          | some m => if m = 0 then 100 else m
          | none => 100
      | none => 100
    let formatStatValue : JVal → JVal → String := fun value statId =>
      if displayMode = "number" then jsToString value ++ "/" ++ toString (getMaxValue statId)
      else jsToString value
    let statsPart? : Option String :=
      match jget data "stats" with
      | .varr stats =>
          stats.foldlM (fun acc stat =>
            match truthy stat, jget stat "value" with
            | false, _ => some acc
            | true, .vundefined => some acc
            | true, v =>
                (statNameOf stat).bind (fun statName =>
                  (statIdOf stat statName).map (fun statId =>
                    acc ++ jsToString statName ++ ": " ++ formatStatValue v statId ++ "\n"))) ""
      | _ => some (flatStatsPart data formatStatValue)
    let statusPart :=
      if truthy (jget data "status") then "Status: " ++ getValue (jget data "status") ++ "\n" else ""
    let moodPart :=
      if truthy (jget data "mood") then "Mood: " ++ getValue (jget data "mood") ++ "\n" else ""
    let skillsPart :=
      if truthy (jget data "skills") then
        match jget data "skills" with
        | .varr l =>
            let skillsList := String.intercalate ", " ((l.map getValue).filter (fun s => s != ""))
            if skillsList = "" then "" else "Skills: " ++ skillsList ++ "\n"
        | .vobj sf =>
            let skillsList := String.intercalate ", " ((sf.map (fun kv =>
              let skillName := getValue (.vstr kv.1)
              let skillVal := getValue kv.2
              if skillVal = "" then skillName
              else skillName ++ ": " ++ skillVal)).filter (fun s => s != ""))
            if skillsList = "" then "" else "Skills: " ++ skillsList ++ "\n"
        | _ => ""
      else ""
    let invPart :=
      if truthy (jget data "inventory") then
        let inv := jget data "inventory"
        let onP :=
          match jget inv "onPerson" with
          | .varr l =>
              if l.length > 0 then
                let items := (l.map getValue).filter (fun s => s != "")
                if items.length > 0 then "On Person: " ++ String.intercalate ", " items ++ "\n" else ""
              else ""
          | _ => ""
        let clothing :=
          match jget inv "clothing" with
          | .varr l =>
              if l.length > 0 then
                let items := (l.map getValue).filter (fun s => s != "")
                if items.length > 0 then "Clothing: " ++ String.intercalate ", " items ++ "\n" else ""
              else ""
          | _ => ""
        let stored :=
          match jget inv "stored" with
          | .vobj sf =>
              sf.foldl (fun acc kv =>
                match kv.2 with
                | .varr il =>
                    if il.length > 0 then
                      let itemsList := (il.map getValue).filter (fun s => s != "")
                      if itemsList.length > 0 then
                        acc ++ getValue (.vstr kv.1) ++ ": " ++
                          String.intercalate ", " itemsList ++ "\n"
                      else acc
                    else acc
                | _ => acc) ""
          | _ => ""
        let assets :=
          match jget inv "assets" with
          | .varr l =>
              if l.length > 0 then
                let items := (l.map getValue).filter (fun s => s != "")
                if items.length > 0 then "Assets: " ++ String.intercalate ", " items ++ "\n" else ""
              else ""
          | _ => ""
        onP ++ clothing ++ stored ++ assets
      else ""
    let questsPart :=
      if truthy (jget data "quests") then
        let quests := jget data "quests"
        let mainPart :=
          if truthy (jget quests "main") then
            match jget quests "main" with
            | .vstr s =>
                let mq := getValue (.vstr s)
                if mq = "" then "" else "Main Quest: " ++ mq ++ "\n"
            | .varr l =>
                if l.length > 0 then
                  let ql := (l.map getValue).filter (fun s => s != "")
                  if ql.length > 0 then "Main Quests: " ++ String.intercalate ", " ql ++ "\n" else ""
                else
                  let mq := getValue (.varr l)
                  if mq = "" then "" else "Main Quest: " ++ mq ++ "\n"
            | .vobj f =>
                let mq := getValue (.vobj f)
                if mq = "" then "" else "Main Quest: " ++ mq ++ "\n"
            | _ => ""
          else ""
        let optPart :=
          match jget quests "optional" with
          | .varr l =>
              if l.length > 0 then
                let ql := (l.map getValue).filter (fun s => s != "")
                if ql.length > 0 then "Optional Quests: " ++ String.intercalate ", " ql ++ "\n" else ""
              else ""
          | _ => ""
        mainPart ++ optPart
      else ""
    statsPart?.map (fun statsPart =>
      userName ++ "\x27s Stats:\n" ++ statsPart ++ statusPart ++ moodPart ++
        skillsPart ++ invPart ++ questsPart)

/-- Known infoBox fields (promptBuilder.js line 691). -/
def knownInfoBoxFields : List String :=
  ["location", "date", "time", "weather", "temperature"]

/-- One fixed infoBox field line (promptBuilder.js lines 684-688). -/
def infoBoxField (data : JVal) (k label : String) : String :=
  if truthy (jget data k) then label ++ ": " ++ getValue (jget data k) ++ "\n" else ""

/-- The infoBox branch of formatTrackerDataForContext (promptBuilder.js
lines 682-704): header, fixed fields in order, then remaining custom
fields with labelized keys.  none models the TypeError on a null payload. -/
def fmtInfoBox (data : JVal) : Option String :=
  if isNullish data then none
  else some (
    "Info Box:\n" ++
    infoBoxField data "location" "Location" ++
    infoBoxField data "date" "Date" ++
    infoBoxField data "time" "Time" ++
    infoBoxField data "weather" "Weather" ++
    infoBoxField data "temperature" "Temperature" ++
    (jsEntries data).foldl (fun acc kv =>
      if knownInfoBoxFields.contains kv.1 then acc
      else
        let val := getValue kv.2
        if val = "" then acc
        else acc ++ labelize kv.1 ++ ": " ++ val ++ "\n") "")

/-- Test whether a value has JavaScript typeof object and is not null
(arrays included). -/
def isObjectLike : JVal → Bool
  | .vobj _ => true
  | .varr _ => true
  | _ => false

/-- The characters branch of formatTrackerDataForContext (promptBuilder.js
lines 705-762).  none models the TypeError raised by accessing name on a
null or undefined list element. -/
def fmtCharacters (data : JVal) : Option String :=
  match data with
  | .varr chars =>
      chars.foldlM (fun acc char =>
        if isNullish char then none
        else
          let charName :=
            let g := getValue (jget char "name")
            if g = "" then "Unknown" else g
          let d := jget char "details"
          let detailsPart :=
            if isObjectLike d then
              (jsEntries d).foldl (fun acc2 kv =>
                let fieldValue := getValue kv.2
                if fieldValue = "" then acc2
                else acc2 ++ "  " ++ labelizeUnderscore kv.1 ++ ": " ++ fieldValue ++ "\n") ""
            else ""
          let rel := jget char "relationship"
          let relPart :=
            if truthy rel then
              let relValue :=
                match rel with
                | .vobj rf =>
                    if (lookupKey rf "status").isSome then getValue (jget rel "status")
                    else getValue rel
                | _ => getValue rel
              if relValue = "" then "" else "  Relationship: " ++ relValue ++ "\n"
            else ""
          let th := jget char "thoughts"
          let thoughtsPart :=
            if truthy th then
              let thoughtValue :=
                match th with
                | .vobj tf =>
                    if (lookupKey tf "content").isSome then getValue (jget th "content")
                    else getValue th
                | _ => getValue th
              if thoughtValue = "" then "" else "  Thoughts: " ++ thoughtValue ++ "\n"
            else ""
          let st := jget char "stats"
          let statsPart :=
            match st with
            | .vobj sf =>
                let statsList := String.intercalate ", " (sf.filterMap (fun kv =>
                  let sv := getValue kv.2
                  if sv = "" then none else some (kv.1 ++ ": " ++ sv)))
                if statsList = "" then "" else "  Stats: " ++ statsList ++ "\n"
            | _ => ""
          some (acc ++ "- " ++ charName ++ ":\n" ++ detailsPart ++ relPart ++
            thoughtsPart ++ statsPart)) "Present Characters:\n"
  | _ => some ""

/-- Context formatter formatTrackerDataForContext (promptBuilder.js
lines 460-771): empty on a falsy input, empty when JSON.parse throws, and
otherwise the branch of the given tracker type, with any TypeError inside
the try block caught and converted to the empty string. -/
def formatTrackerDataForContext (input : TrackerInput) (trackerType userName : String)
    (cfg? : Option UserStatsCfgCtx) : String :=
  match input with
  | .empty => ""
  | .malformed _ => ""
  | .parsed data =>
      (if trackerType = "userStats" then fmtUserStats data userName cfg?
       else if trackerType = "infoBox" then fmtInfoBox data
       else if trackerType = "characters" then fmtCharacters data
       else some "").getD ""

/-- Per-field persistence configuration entry exposing the two flags read
by the historical filter. -/
structure FieldCfg where
  enabled : Option Bool := none
  persistInHistory : Option Bool := none

/-- Historical field filter shouldInclude (promptBuilder.js lines 791-796):
under useAllEnabled the field is included unless its enabled flag is
exactly false (optional chaining yields undefined for a missing entry);
otherwise it is included exactly when persistInHistory is exactly true. -/
def shouldInclude (useAllEnabled : Bool) (config : Option FieldCfg) : Bool :=
  if useAllEnabled then !((config.bind (fun c => c.enabled)) == some false)
  else (config.bind (fun c => c.persistInHistory)) == some true

/-- Historical per-stat filter shouldIncludeStat (promptBuilder.js
lines 799-804), same logic applied to a customStats entry. -/
def shouldIncludeStat (useAllEnabled : Bool) (configStat : Option CustomStatCfg) : Bool :=
  if useAllEnabled then !((configStat.bind (fun c => c.enabled)) == some false)
  else (configStat.bind (fun c => c.persistInHistory)) == some true

/-- Status section configuration of trackerConfig userStats. -/
structure StatusSectionCfg where
  enabled : Option Bool := none
  persistInHistory : Option Bool := none
  showMoodEmoji : Option Bool := none
  customFields : Option (List String) := none

/-- View of a status section configuration as a plain field entry (the
filter reads only the two flags). -/
def statusToField (s : StatusSectionCfg) : FieldCfg :=
  { enabled := s.enabled, persistInHistory := s.persistInHistory }

/-- Slice of trackerConfig userStats read by formatHistoricalTrackerData. -/
structure UserStatsHistCfg where
  customStats : Option (List CustomStatCfg) := none
  statusSection : Option StatusSectionCfg := none
  skillsSection : Option FieldCfg := none
  inventoryPersistInHistory : Option Bool := none
  questsPersistInHistory : Option Bool := none

/-- Widget entries of trackerConfig infoBox. -/
structure WidgetsCfg where
  date : Option FieldCfg := none
  time : Option FieldCfg := none
  weather : Option FieldCfg := none
  temperature : Option FieldCfg := none
  location : Option FieldCfg := none
  recentEvents : Option FieldCfg := none

/-- Slice of trackerConfig infoBox read by formatHistoricalTrackerData. -/
structure InfoBoxHistCfg where
  widgets : Option WidgetsCfg := none

/-- Custom character field configuration entry (settings-owned, with id
and display name strings). -/
structure CustomFieldCfg where
  id : String
  name : String
  enabled : Option Bool := none
  persistInHistory : Option Bool := none

/-- View of a character custom field entry as a customStats-shaped entry
for shouldIncludeStat. -/
def customFieldToStat (f : CustomFieldCfg) : CustomStatCfg :=
  { id := f.id, name := some f.name, enabled := f.enabled,
    persistInHistory := f.persistInHistory }

/-- Slice of trackerConfig presentCharacters read by
formatHistoricalTrackerData. -/
structure CharsHistCfg where
  customFields : Option (List CustomFieldCfg) := none
  thoughts : Option FieldCfg := none

/-- The tracker configuration object handed to the historical formatter. -/
structure TrackerConfigH where
  userStats : Option UserStatsHistCfg := none
  infoBox : Option InfoBoxHistCfg := none
  presentCharacters : Option CharsHistCfg := none

/-- Raw per-category payload stored on a message: falsy, a truthy string
on which JSON.parse throws, a truthy string parsing to a value, or a
truthy non-string value used directly. -/
inductive RawTracker where
  | absent
  | malformed (s : String)
  | parsedStr (v : JVal)
  | objVal (v : JVal)

/-- Per-message tracker data record (userStats, infoBox and
characterThoughts payloads). -/
structure TrackerData where
  userStats : RawTracker := .absent
  infoBox : RawTracker := .absent
  characterThoughts : RawTracker := .absent

/-- The userStats section of formatHistoricalTrackerData (promptBuilder.js
lines 843-913).  none models a TypeError inside the shared try block:
property access on a null payload or on an absent userStats configuration
(the statusSection guard reads it unconditionally), a null stats element,
or the configStat.name access with an absent config entry. -/
def histUserStats (data : JVal) (usCfg? : Option UserStatsHistCfg) (useAll : Bool)
    (userName : String) : Option String :=
  if isNullish data then none
  else
    match usCfg? with
    | none => none
    | some usCfg =>
      let statsPart? : Option String :=
        match jget data "stats" with
        | .varr stats =>
            match usCfg.customStats with
            | some cstats =>
                stats.foldlM (fun acc stat =>
                  (if isNullish stat && !cstats.isEmpty then none
                   else some (cstats.find? (fun s => idMatches s.id (jget stat "id")))).bind
                    (fun configStat =>
                      if !(shouldIncludeStat useAll configStat) then some acc
                      else if isNullish stat then none
                      else
                        match jget stat "value" with
                        | .vundefined => some acc
                        | v =>
                            (if truthy (jget stat "name") then some (jget stat "name")
                             else match configStat with
                               | none => none
                               | some c =>
                                   match c.name with
                                   | some nm =>
                                       if nm = "" then some (jget stat "id")
                                       else some (.vstr nm)
                                   | none => some (jget stat "id")).map (fun statName =>
                              acc ++ jsToString statName ++ ": " ++ jsToString v ++ ", "))) ""
            | none => some ""
        | _ => some ""
      let statusPart? : Option String :=
        if shouldInclude useAll (usCfg.statusSection.map statusToField) &&
            truthy (jget data "status") then
          let status := jget data "status"
          let mood := getValueH (if truthy (jget status "mood") then jget status "mood" else status)
          match usCfg.statusSection with
          | none => none
          | some ss =>
              let moodPart :=
                if mood != "" && (ss.showMoodEmoji == some true) then "Mood: " ++ mood ++ ", "
                else ""
              let fieldsPart := (ss.customFields.getD []).foldl (fun acc fieldName =>
                let fieldKey := fieldName.toLower
                let fieldValue := getValueH (jget status fieldKey)
                if fieldValue ≠ "" ∧ fieldValue ≠ "None" then
                  acc ++ fieldName ++ ": " ++ fieldValue ++ ", "
                else acc) ""
              some (moodPart ++ fieldsPart)
        else some ""
      let skillsPart :=
        if shouldInclude useAll usCfg.skillsSection && truthy (jget data "skills") then
          let sk := jget data "skills"
          let skillsList :=
            match sk with
            | .varr l => String.intercalate ", " ((l.map getValueH).filter (fun s => s != ""))
            | _ => getValueH sk
          if skillsList ≠ "" then "Skills: " ++ skillsList ++ ", " else ""
        else ""
      let invPart :=
        if (useAll || (usCfg.inventoryPersistInHistory == some true)) &&
            truthy (jget data "inventory") then
          let inv := jget data "inventory"
          let onP :=
            match jget inv "onPerson" with
            | .varr l =>
                if l.length > 0 then
                  let items := (l.map getValueH).filter (fun s => s != "")
                  if items.length > 0 then
                    "On Person: " ++ String.intercalate ", " items ++ ", "
                  else ""
                else ""
            | _ => ""
          let cloth :=
            match jget inv "clothing" with
            | .varr l =>
                if l.length > 0 then
                  let items := (l.map getValueH).filter (fun s => s != "")
                  if items.length > 0 then
                    "Clothing: " ++ String.intercalate ", " items ++ ", "
                  else ""
                else ""
            | _ => ""
          onP ++ cloth
        else ""
      let questsPart :=
        if (useAll || (usCfg.questsPersistInHistory == some true)) &&
            truthy (jget data "quests") then
          let q := jget data "quests"
          if truthy (jget q "main") then
            let mainQuest := getValueH (jget q "main")
            if mainQuest ≠ "" ∧ mainQuest ≠ "None" then "Quest: " ++ mainQuest ++ ", " else ""
          else ""
        else ""
      statsPart?.bind (fun p1 =>
        statusPart?.map (fun p2 =>
          let sf := p1 ++ p2 ++ skillsPart ++ invPart ++ questsPart
          if sf ≠ "" then userName ++ ": " ++ jsDropRight sf 2 ++ "\n" else ""))

/-- One widget line of the historical infoBox section. -/
def histWidgetLine (data : JVal) (useAll : Bool) (cfg : Option FieldCfg) (k label : String) :
    String :=
  if shouldInclude useAll cfg && truthy (jget data k) then
    let v := getValueH (jget data k)
    if v ≠ "" then label ++ ": " ++ v ++ ", " else ""
  else ""

/-- The infoBox section of formatHistoricalTrackerData (promptBuilder.js
lines 916-963).  An absent infoBox configuration or widgets record, or a
null payload, throws inside the shared try block (none). -/
def histInfoBox (data : JVal) (ibCfg? : Option InfoBoxHistCfg) (useAll : Bool) :
    Option String :=
  match ibCfg? with
  | none => none
  | some ibCfg =>
    match ibCfg.widgets with
    | none => none
    | some w =>
      if isNullish data then none
      else
        let s :=
          histWidgetLine data useAll w.date "date" "Date" ++
          histWidgetLine data useAll w.time "time" "Time" ++
          histWidgetLine data useAll w.weather "weather" "Weather" ++
          histWidgetLine data useAll w.temperature "temperature" "Temp" ++
          histWidgetLine data useAll w.location "location" "Location" ++
          histWidgetLine data useAll w.recentEvents "recentEvents" "Events"
        some (if s ≠ "" then jsDropRight s 2 ++ "\n" else "")

/-- The characters section of formatHistoricalTrackerData
(promptBuilder.js lines 966-1002).  none models a TypeError: property
access on a null payload, iterating a non-iterable characters value, or
reading the presentCharacters configuration when it is absent while a
named character is processed. -/
def histChars (data : JVal) (chCfg? : Option CharsHistCfg) (useAll : Bool) :
    Option String :=
  let characters? : Option (List JVal) :=
    match data with
    | .varr l => some l
    | .vnull => none
    | .vundefined => none
    | _ =>
        match jget data "characters" with
        | .varr l => some l
        | .vstr s =>
            if s = "" then some []
            else some (s.data.map (fun c => .vstr (String.mk [c])))
        | .vnull => some []
        | .vundefined => some []
        | .vbool b => if b then none else some []
        | .vnum n => if n = 0 then some [] else none
        | .vobj _ => none
  characters?.bind (fun characters =>
    characters.foldlM (fun acc char =>
      if !(truthy char) then some acc
      else if !(truthy (jget char "name")) then some acc
      else
        match chCfg? with
        | none => none
        | some chCfg =>
          let d := jget char "details"
          let detailsPart? : Option String :=
            if truthy d && isObjectLike d then
              match chCfg.customFields with
              | none => none
              | some cfields =>
                  some (cfields.foldl (fun acc2 field =>
                    if shouldIncludeStat useAll (some (customFieldToStat field)) &&
                        truthy (jget d field.id) then
                      let value := getValueH (jget d field.id)
                      if value ≠ "" then acc2 ++ field.name ++ ": " ++ value ++ ", " else acc2
                    else acc2) "")
            else some ""
          detailsPart?.map (fun detailsPart =>
            let th := jget char "thoughts"
            let thoughtsPart :=
              if shouldInclude useAll chCfg.thoughts && truthy th then
                let thoughts :=
                  if isObjectLike th && truthy (jget th "content") then
                    getValueH (jget th "content")
                  else getValueH th
                if thoughts ≠ "" then "Thinking: " ++ thoughts ++ ", " else ""
              else ""
            let charFormatted := detailsPart ++ thoughtsPart
            if charFormatted ≠ "" then
              acc ++ getValueH (jget char "name") ++ ": " ++ jsDropRight charFormatted 2 ++ "\n"
            else acc)) "")

/-- Body of formatHistoricalTrackerData inside its single shared try block
(promptBuilder.js lines 841-1004): the three category sections run in
order and any thrown error aborts the whole body. -/
def histBody (td : TrackerData) (cfg : TrackerConfigH) (userName : String) (useAll : Bool) :
    Option String :=
  (match td.userStats with
   | .absent => some ""
   | .malformed _ => none
   | .parsedStr v => histUserStats v cfg.userStats useAll userName
   | .objVal v => histUserStats v cfg.userStats useAll userName).bind (fun s1 =>
  (match td.infoBox with
   | .absent => some ""
   | .malformed _ => none
   | .parsedStr v => histInfoBox v cfg.infoBox useAll
   | .objVal v => histInfoBox v cfg.infoBox useAll).bind (fun s2 =>
  (match td.characterThoughts with
   | .absent => some ""
   | .malformed _ => none
   | .parsedStr v => histChars v cfg.presentCharacters useAll
   | .objVal v => histChars v cfg.presentCharacters useAll).map (fun s3 =>
  s1 ++ s2 ++ s3)))

/-- Historical formatter formatHistoricalTrackerData (promptBuilder.js
lines 785-1009): empty on an absent configuration, otherwise the trimmed
body, with any error caught and converted to the empty string. -/
def formatHistoricalTrackerData (td : TrackerData) (cfg? : Option TrackerConfigH)
    (userName : String) (useAll : Bool) : String :=
  match cfg? with
  | none => ""
  | some cfg =>
      match histBody td cfg userName useAll with
      | some s => jsTrim s
      | none => ""

/-- Truthiness of a committed payload as tested by the summary generator. -/
def trackerInputTruthy : TrackerInput → Bool
  | .empty => false
  | _ => true

/-- Configured RPG attribute entry (settings-owned). -/
structure RpgAttribute where
  id : String
  name : String
  enabled : Bool := true

/-- Default attribute list of buildAttributesString (promptBuilder.js
lines 208-215). -/
def defaultRpgAttributes : List RpgAttribute :=
  [⟨"str", "STR", true⟩, ⟨"dex", "DEX", true⟩, ⟨"con", "CON", true⟩,
   ⟨"int", "INT", true⟩, ⟨"wis", "WIS", true⟩, ⟨"cha", "CHA", true⟩]

/-- Attribute string builder buildAttributesString (promptBuilder.js
lines 202-232): enabled attributes with their classicStats values
(default 10), then the level unless showLevel is exactly false. -/
def buildAttributesString (rpgAttributes : Option (List RpgAttribute))
    (classicStats : List (String × Int)) (showLevel : Option Bool) (level : Int) : String :=
  let attrs := (rpgAttributes.getD defaultRpgAttributes).filter
    (fun a => a.enabled && a.name != "" && a.id != "")
  let parts := attrs.map (fun a => a.name ++ " " ++ toString ((classicStats.lookup a.id).getD 10))
  let parts := if showLevel == some false then parts else parts ++ ["LVL " ++ toString level]
  String.intercalate ", " parts

/-- Last dice roll record of extensionSettings. -/
structure DiceRoll where
  total : Int
  formula : String

/-- The extension settings read by generateContextualSummary: module
toggles, committed payloads, the userStats configuration slices, and the
attribute and dice-roll state. -/
structure SummarySettings where
  showUserStats : Bool := false
  showInfoBox : Bool := false
  showCharacterThoughts : Bool := false
  userStats : TrackerInput := .empty
  infoBox : TrackerInput := .empty
  characterThoughts : TrackerInput := .empty
  usCfg : Option UserStatsCfgCtx := none
  alwaysSendAttributes : Option Bool := none
  showRPGAttributes : Option Bool := none
  rpgAttributes : Option (List RpgAttribute) := none
  showLevel : Option Bool := none
  classicStats : List (String × Int) := []
  level : Int := 0
  lastDiceRoll : Option DiceRoll := none

/-- Contextual summary generator generateContextualSummary
(promptBuilder.js lines 1018-1084): each enabled category with a truthy
committed payload is formatted independently (its own try/catch around a
formatter that itself swallows errors) and appended with a newline when
non-empty; then the attribute line and dice-roll context; the whole is
trimmed. -/
def generateContextualSummary (userName : String) (st : SummarySettings) : String :=
  let p1 :=
    if st.showUserStats && trackerInputTruthy st.userStats then
      let f := formatTrackerDataForContext st.userStats "userStats" userName st.usCfg
      if f ≠ "" then f ++ "\n" else ""
    else ""
  let p2 :=
    if st.showInfoBox && trackerInputTruthy st.infoBox then
      let f := formatTrackerDataForContext st.infoBox "infoBox" userName st.usCfg
      if f ≠ "" then f ++ "\n" else ""
    else ""
  let p3 :=
    if st.showCharacterThoughts && trackerInputTruthy st.characterThoughts then
      let f := formatTrackerDataForContext st.characterThoughts "characters" userName st.usCfg
      if f ≠ "" then f ++ "\n" else ""
    else ""
  let shouldSend := (st.alwaysSendAttributes == some true) && !(st.showRPGAttributes == some false)
  let p4 :=
    if shouldSend then
      userName ++ "\x27s attributes: " ++
        buildAttributesString st.rpgAttributes st.classicStats st.showLevel st.level ++ "\n"
    else ""
  let p5 :=
    match st.lastDiceRoll with
    | some roll =>
        if shouldSend then
          userName ++ " rolled " ++ toString roll.total ++ " on the last " ++ roll.formula ++
            " roll. Based on their attributes, decide whether they succeeded or failed the action they attempted.\n\n"
        else
          userName ++ " rolled " ++ toString roll.total ++ " on the last " ++ roll.formula ++
            " roll. Decide whether they succeeded or failed the action they attempted.\n\n"
    | none => if shouldSend then "\n" else ""
  jsTrim (p1 ++ p2 ++ p3 ++ p4 ++ p5)

/-- Test whether the first character list starts the second. -/
def hasPre : List Char → List Char → Bool
  | [], _ => true
  | _ :: _, [] => false
  | a :: as, b :: bs => a == b && hasPre as bs

/-- Test whether the first character list occurs inside the second. -/
def occursIn (needle : List Char) : List Char → Bool
  | [] => needle.isEmpty
  | b :: bs => hasPre needle (b :: bs) || occursIn needle bs

/-- Boolean substring test (used to state that an injection text contains
or omits a field). -/
def containsSub (hay needle : String) : Bool :=
  occursIn needle.data hay.data

/-- Per-swipe info entry of a chat message, exposing the stored tracker
swipes record (message.swipe_info[i].extra.rpg_companion_swipes). -/
structure SwipeInfoEntry where
  extra_swipes : Option (List (Nat × TrackerData)) := none

/-- Transcript message as read by generateSeparateUpdatePrompt: author
flags, text, current swipe id, and the two possible locations of the
rpg_companion_swipes record (keyed by swipe id). -/
structure ChatMessage where
  is_user : Bool := false
  is_system : Bool := false
  mes : String := ""
  swipe_id : Option Nat := none
  extra_swipes : Option (List (Nat × TrackerData)) := none
  swipe_info : Option (List (Option SwipeInfoEntry)) := none

/-- History persistence settings read by generateSeparateUpdatePrompt. -/
structure HistoryPersistence where
  enabled : Bool := false
  injectionPosition : Option String := none
  sendAllEnabledOnRefresh : Option Bool := none
  contextPreamble : Option String := none

/-- Tracker data resolution for one message (promptBuilder.js
lines 1250-1269): the swipes record from message.extra, else from
swipe_info at the current swipe id, then the entry at the current swipe
id; absent data skips the message. -/
def resolveTrackerData (m : ChatMessage) : Option TrackerData :=
  let currentSwipeId := m.swipe_id.getD 0
  let swipeData : Option (List (Nat × TrackerData)) :=
    match m.extra_swipes with
    | some sd => some sd
    | none =>
        match m.swipe_info with
        | some infos =>
            match infos.get? currentSwipeId with
            | some (some entry) => entry.extra_swipes
            | _ => none
        | none => none
  match swipeData with
  | none => none
  | some sd => sd.lookup currentSwipeId

/-- Index of the last model-authored (neither user nor system) turn in the
window, scanning from the end (promptBuilder.js lines 1228-1234); none
models the sentinel -1. -/
def findLastAssistantIdx : List ChatMessage → Option Nat
  | [] => none
  | msg :: rest =>
      match findLastAssistantIdx rest with
      | some j => some (j + 1)
      | none => if !msg.is_user && !msg.is_system then some 0 else none

/-- Backward scan for the nearest strictly preceding user turn
(promptBuilder.js lines 1285-1297); none models the no-fallback skip. -/
def findPrecUser (msgs : List ChatMessage) : Nat → Option Nat
  | 0 => none
  | j + 1 =>
      match msgs.get? j with
      | some mj => if mj.is_user && !mj.is_system then some j else findPrecUser msgs j
      | none => findPrecUser msgs j

/-- Map accumulation (promptBuilder.js lines 1301-1306): append to the
existing entry text, else insert a new entry at the end (insertion order
preserved, as for a JavaScript Map). -/
def mapAppend (m : List (Nat × String)) (k : Nat) (v : String) : List (Nat × String) :=
  if (m.lookup k).isSome then
    m.map (fun e => if e.1 = k then (e.1, e.2 ++ v) else e)
  else m ++ [(k, v)]

/-- Handling of one window message in the injection-map loop
(promptBuilder.js lines 1237-1307): skip user/system turns, skip the last
model turn, resolve the attached snapshot, format it, and accumulate the
wrapped context at the turn index (assistant anchor) or at the nearest
preceding user turn (user anchor, skipped when none exists). -/
def processMessage (msgs : List ChatMessage) (hp : HistoryPersistence)
    (cfg? : Option TrackerConfigH) (userName : String) (lastAssistantIdx : Option Nat)
    (m : List (Nat × String)) (i : Nat) (msg : ChatMessage) : List (Nat × String) :=
  if msg.is_user || msg.is_system then m
  else if some i == lastAssistantIdx then m
  else
    match resolveTrackerData msg with
    | none => m
    | some trackerData =>
        let useAllEnabled := hp.sendAllEnabledOnRefresh == some true
        let formattedContext := formatHistoricalTrackerData trackerData cfg? userName useAllEnabled
        if formattedContext = "" then m
        else
          let preamble := jsDefaultStr hp.contextPreamble "Context for that moment:"
          let wrappedContext := "\n" ++ preamble ++ "\n" ++ formattedContext
          let position := jsDefaultStr hp.injectionPosition "assistant_message_end"
          let target? : Option Nat :=
            if position = "user_message_end" then findPrecUser msgs i
            else some i
          match target? with
          | none => m
          | some t => mapAppend m t wrappedContext

/-- Injection map construction of generateSeparateUpdatePrompt
(promptBuilder.js lines 1222-1308): with history persistence enabled, scan
the window in order and accumulate per-turn context contributions. -/
def buildInjectionMap (msgs : List ChatMessage) (hp : HistoryPersistence)
    (cfg? : Option TrackerConfigH) (userName : String) : List (Nat × String) :=
  if hp.enabled then
    let lastAssistantIdx := findLastAssistantIdx msgs
    (msgs.enum).foldl
      (fun m p => processMessage msgs hp cfg? userName lastAssistantIdx m p.1 p.2) []
  else []

/-- Snapshot payload of the C6 example: two stats, hp persisted and mp not
persisted. -/
def exampleSnapshotC6 : TrackerData :=
  { userStats := .parsedStr (.vobj [("stats", .varr [
      .vobj [("id", .vstr "hp"), ("name", .vstr "HP"), ("value", .vnum 7)],
      .vobj [("id", .vstr "mp"), ("name", .vstr "MP"), ("value", .vnum 3)]])]) }

/-- Persistence policy of the C6 example: hp persists in history, mp does
not. -/
def exampleConfigC6 : TrackerConfigH :=
  { userStats := some { customStats := some [
      { id := "hp", persistInHistory := some true },
      { id := "mp", persistInHistory := some false }] } }

/-- History settings of the C6 example: enabled, assistant-turn-end
anchor. -/
def examplePersistenceC6 : HistoryPersistence :=
  { enabled := true, injectionPosition := some "assistant_message_end" }

/-- The four-turn window of the C6 claim: user, model without snapshot,
user, model with the snapshot. -/
def exampleWindowC6 : List ChatMessage :=
  [ { is_user := true, mes := "u1" },
    { mes := "a1" },
    { is_user := true, mes := "u2" },
    { mes := "a2", extra_swipes := some [(0, exampleSnapshotC6)] } ]

/-- A nearby window where the snapshot sits on an earlier model turn:
user, model with the snapshot, user, model without snapshot. -/
def exampleWindowC6b : List ChatMessage :=
  [ { is_user := true, mes := "u1" },
    { mes := "a1", extra_swipes := some [(0, exampleSnapshotC6)] },
    { is_user := true, mes := "u2" },
    { mes := "a2" } ]

/-- Committed category payload as read by generateTrackerExample: falsy,
a truthy text-format string (JSON.parse throws), or a truthy JSON string
(JSON.parse succeeds). -/
inductive CommittedPayload where
  | absent
  | textRaw (s : String)
  | jsonRaw (s : String)

/-- JSON parts accumulation of generateTrackerExample (promptBuilder.js
lines 259-290): each enabled category whose committed payload parses as
JSON contributes a keyed, lock-adjusted entry, in the fixed order
userStats, infoBox, characters.  applyLocks is the external lock manager
(outside the modelled core) taken as an opaque function of the payload
string and category key. -/
def trackerJSONParts (sh1 sh2 sh3 : Bool) (us ib ct : CommittedPayload)
    (applyLocks : String → String → String) : List String :=
  (if sh1 then
    match us with
    | .jsonRaw s => ["  \"userStats\": " ++ applyLocks s "userStats"]
    | _ => []
   else []) ++
  (if sh2 then
    match ib with
    | .jsonRaw s => ["  \"infoBox\": " ++ applyLocks s "infoBox"]
    | _ => []
   else []) ++
  (if sh3 then
    match ct with
    | .jsonRaw s => ["  \"characters\": " ++ applyLocks s "characters"]
    | _ => []
   else [])

/-- Legacy fenced-code accumulation of generateTrackerExample: each
enabled category whose committed payload is text format appends a fenced
block (the characters block without a trailing newline,
promptBuilder.js lines 268, 278, 288). -/
def trackerLegacyText (sh1 sh2 sh3 : Bool) (us ib ct : CommittedPayload) : String :=
  (if sh1 then
    match us with
    | .textRaw s => "```\n" ++ s ++ "\n```\n"
    | _ => ""
   else "") ++
  (if sh2 then
    match ib with
    | .textRaw s => "```\n" ++ s ++ "\n```\n"
    | _ => ""
   else "") ++
  (if sh3 then
    match ct with
    | .textRaw s => "```\n" ++ s ++ "\n```"
    | _ => ""
   else "")

/-- Example generator generateTrackerExample (promptBuilder.js
lines 240-300): when at least one JSON part was collected, the assignment
at line 294 replaces the accumulated legacy text with the unified JSON
object, so the returned (trimmed) string is the unified object alone;
otherwise the legacy text is returned trimmed. -/
def generateTrackerExample (sh1 sh2 sh3 : Bool) (us ib ct : CommittedPayload)
    (applyLocks : String → String → String) : String :=
  let parts := trackerJSONParts sh1 sh2 sh3 us ib ct applyLocks
  let legacy := trackerLegacyText sh1 sh2 sh3 us ib ct
  jsTrim (if parts.length > 0 then
    "\x7b\n" ++ String.intercalate ",\n" parts ++ "\n\x7d"
  else legacy)

/-- C2: resolving the locked wrapper object with fields value and locked
yields exactly the string obtained by resolving the wrapped value directly,
for both resolver copies; in particular the result never depends on the
lock flag.  Nested wrappers are covered because the wrapped value is
universally quantified. -/
theorem locked_wrapper_transparent_c2 (v : JVal) (b : Bool) :
    getValue (.vobj [("value", v), ("locked", .vbool b)]) = getValue v ∧
    getValueH (.vobj [("value", v), ("locked", .vbool b)]) = getValueH v := by
  constructor
  · simp [getValue, lookupKey]
  · simp [getValueH, lookupKey]

/-- C9: both field value resolvers are total functions of the modelled
input (their Lean definitions are accepted as terminating): a scalar
resolves to its stringification, null/undefined and the empty list resolve
to the empty string, and an object of unrecognized shape (none of the
marker keys, more than three fields) resolves to the empty string. -/
theorem resolver_total_c9 :
    (∀ s : String, getValue (.vstr s) = s ∧ getValueH (.vstr s) = s) ∧
    (∀ n : Int, getValue (.vnum n) = toString n ∧ getValueH (.vnum n) = toString n) ∧
    (∀ b : Bool, getValue (.vbool b) = toString b ∧ getValueH (.vbool b) = toString b) ∧
    (getValue .vnull = "" ∧ getValue .vundefined = "" ∧
     getValueH .vnull = "" ∧ getValueH .vundefined = "") ∧
    (getValue (.varr []) = "" ∧ getValueH (.varr []) = "") ∧
    (∀ fields : List (String × JVal),
      lookupKey fields "value" = none →
      lookupKey fields "mood" = none →
      lookupKey fields "name" = none →
      lookupKey fields "title" = none →
      lookupKey fields "start" = none →
      lookupKey fields "emoji" = none →
      3 < fields.length →
      getValue (.vobj fields) = "" ∧ getValueH (.vobj fields) = "") := by
  refine ⟨?_, ?_, ?_, ?_, ?_, ?_⟩
  · intro s; exact ⟨by simp [getValue], by simp [getValueH]⟩
  · intro n; exact ⟨by simp [getValue], by simp [getValueH]⟩
  · intro b; exact ⟨by simp [getValue], by simp [getValueH]⟩
  · exact ⟨by simp [getValue], by simp [getValue], by simp [getValueH], by simp [getValueH]⟩
  · exact ⟨by simp only [getValue]; rfl, by simp only [getValueH]; rfl⟩
  · intro fields h1 h2 h3 h4 h5 h6 hlen
    constructor
    · simp only [getValue]
      repeat' split
      all_goals try simp_all
      all_goals omega
    · simp only [getValueH]
      repeat' split
      all_goals try simp_all

/-- C3 counterexample: the claim says the formatter returns the empty
string on the parsed-but-fieldless payload of JSON text consisting of an
empty object, but for the userStats category it returns the header line. -/
theorem format_empty_object_c3_counterexample :
    formatTrackerDataForContext (.parsed (.vobj [])) "userStats" "User" none ≠ "" := by
  decide

/-- C3 (amended): the formatter returns the empty string on a falsy
snapshot (null, undefined, empty string) and on an unparseable snapshot
with no exception escaping, for every category and user name; on the
parsed fieldless object payload it instead returns just the fixed header
for the userStats and infoBox categories, and the empty string for the
characters category. -/
theorem empty_snapshot_format_c3 :
    (∀ (ty u : String) (cfg? : Option UserStatsCfgCtx),
      formatTrackerDataForContext .empty ty u cfg? = "") ∧
    (∀ (s ty u : String) (cfg? : Option UserStatsCfgCtx),
      formatTrackerDataForContext (.malformed s) ty u cfg? = "") ∧
    (∀ (u : String) (cfg? : Option UserStatsCfgCtx),
      formatTrackerDataForContext (.parsed (.vobj [])) "userStats" u cfg? =
        u ++ "\x27s Stats:\n") ∧
    (∀ (u : String) (cfg? : Option UserStatsCfgCtx),
      formatTrackerDataForContext (.parsed (.vobj [])) "infoBox" u cfg? = "Info Box:\n") ∧
    (∀ (u : String) (cfg? : Option UserStatsCfgCtx),
      formatTrackerDataForContext (.parsed (.vobj [])) "characters" u cfg? = "") := by
  refine ⟨fun ty u c => rfl, fun s ty u c => rfl, ?_, ?_, ?_⟩
  · intro u c
    simp [formatTrackerDataForContext, fmtUserStats, flatStatsPart, jget, lookupKey,
      jsEntries, truthy, isNullish, statFieldOrder, specialFields]
  · intro u c
    simp [formatTrackerDataForContext, fmtInfoBox, infoBoxField, jget, lookupKey,
      jsEntries, truthy, isNullish, knownInfoBoxFields]
  · intro u c
    simp [formatTrackerDataForContext, fmtCharacters]

/-- C7 counterexample: on the scene-info snapshot of the claim the
formatter output is not the claimed string (the real output carries the
Info Box header line and a trailing newline). -/
theorem infobox_example_c7_counterexample :
    formatTrackerDataForContext
      (.parsed (.vobj [("location", .vstr "Forest Clearing"),
        ("weather", .vobj [("emoji", .vstr "☀️"), ("forecast", .vstr "Clear")])]))
      "infoBox" "User" none ≠
    "Location: Forest Clearing\nWeather: ☀️ Clear" := by
  simp [formatTrackerDataForContext, fmtInfoBox, infoBoxField, jget, lookupKey, jsEntries,
    knownInfoBoxFields, truthy, getValue, labelize, isNullish]

/-- C7 (amended): the scene-info snapshot with a location and a compound
weather record formats to the header line, the location line and the
weather line rendered as emoji, space, forecast, with a trailing newline. -/
theorem infobox_example_output_c7 :
    formatTrackerDataForContext
      (.parsed (.vobj [("location", .vstr "Forest Clearing"),
        ("weather", .vobj [("emoji", .vstr "☀️"), ("forecast", .vstr "Clear")])]))
      "infoBox" "User" none =
    "Info Box:\nLocation: Forest Clearing\nWeather: ☀️ Clear\n" := by
  simp [formatTrackerDataForContext, fmtInfoBox, infoBoxField, jget, lookupKey, jsEntries,
    knownInfoBoxFields, truthy, getValue, labelize, isNullish]

/-- C8: under display mode number and a configured maximum of 10 for the
stat id hp, the player-stats snapshot with the stat entry HP of value 7
formats with the line HP: 7/10 (raw number with the configured maximum
looked up by stat id). -/
theorem stats_number_mode_line_c8 :
    formatTrackerDataForContext
      (.parsed (.vobj [("stats", .varr [.vobj [("id", .vstr "hp"), ("name", .vstr "HP"),
        ("value", .vnum 7)]])]))
      "userStats" "User"
      (some { statsDisplayMode := some "number",
              customStats := some [{ id := "hp", maxValue := some 10 }] }) =
      "User\x27s Stats:\nHP: 7/10\n" ∧
    ((splitLines "User\x27s Stats:\nHP: 7/10\n").contains "HP: 7/10") = true := by
  constructor
  · simp [formatTrackerDataForContext, fmtUserStats, jget, lookupKey, jsEntries, truthy,
      isNullish, jsDefaultStr, statNameOf, statIdOf, capitalizeJS, idMatches, jsToString,
      flatStatsPart, statFieldOrder, specialFields, getValue]
    rfl
  · decide

theorem option_bind_const_none {α β : Type} (o : Option α) :
    (o.bind (fun _ => (none : Option β))) = none := by
  cases o <;> rfl

/-- C4 counterexample: a field with no configuration entry IS included
when includeAllEnabled is true (optional chaining yields undefined, which
is not exactly false), contradicting the claim that a field with no
configuration entry is never included by default. -/
theorem missing_config_included_c4_counterexample :
    shouldInclude true none = true ∧ shouldIncludeStat true none = true := by
  decide

/-- C4 (amended): under includeAllEnabled the field is included exactly
when its enabled flag is not exactly false (so a missing entry is
included); otherwise it is included exactly when its persistInHistory
flag is exactly true, and in that mode a field with no configuration
entry is not included. -/
theorem field_filter_c4 (c : Option FieldCfg) (cs : Option CustomStatCfg) :
    (shouldInclude true c = true ↔ ¬ c.bind (fun x => x.enabled) = some false) ∧
    (shouldInclude false c = true ↔ c.bind (fun x => x.persistInHistory) = some true) ∧
    shouldInclude false none = false ∧
    (shouldIncludeStat true cs = true ↔ ¬ cs.bind (fun x => x.enabled) = some false) ∧
    (shouldIncludeStat false cs = true ↔ cs.bind (fun x => x.persistInHistory) = some true) ∧
    shouldIncludeStat false none = false := by
  refine ⟨?_, ?_, rfl, ?_, ?_, rfl⟩ <;> simp [shouldInclude, shouldIncludeStat]

/-- Witness for C4 at concrete configuration entries. -/
theorem field_filter_c4_witness :
    shouldInclude true (some { enabled := some true, persistInHistory := none }) = true ∧
    shouldIncludeStat false (some { id := "hp", persistInHistory := some true }) = true := by
  constructor
  · exact (field_filter_c4 (some { enabled := some true, persistInHistory := none })
      none).1.mpr (by decide)
  · exact (field_filter_c4 none
      (some { id := "hp", persistInHistory := some true })).2.2.2.2.1.mpr (by decide)

/-- C1 counterexample: in the historical path a malformed infoBox string
next to a well-formed userStats payload with a persisted stat yields the
empty string, although with the failing category absent the sibling
contribution is non-empty — the parse failure aborts the siblings. -/
theorem history_sibling_c1_counterexample :
    formatHistoricalTrackerData
      { userStats := .parsedStr (.vobj [("stats", .varr [
          .vobj [("id", .vstr "hp"), ("name", .vstr "HP"), ("value", .vnum 7)]])]),
        infoBox := .malformed "not json",
        characterThoughts := .absent }
      (some { userStats :=
          some { customStats := some [{ id := "hp", persistInHistory := some true }] } })
      "User" false = "" ∧
    formatHistoricalTrackerData
      { userStats := .parsedStr (.vobj [("stats", .varr [
          .vobj [("id", .vstr "hp"), ("name", .vstr "HP"), ("value", .vnum 7)]])]),
        infoBox := .absent,
        characterThoughts := .absent }
      (some { userStats :=
          some { customStats := some [{ id := "hp", persistInHistory := some true }] } })
      "User" false = "User: HP: 7" := by
  constructor
  · rfl
  · simp [formatHistoricalTrackerData, histBody, histUserStats, jget, lookupKey, truthy,
      isNullish, idMatches, shouldIncludeStat, shouldInclude, statusToField, jsToString,
      getValueH]
    rfl

/-- C1 (amended): in the per-category summary path a parse failure in one
category degrades that category to an empty contribution and leaves every
sibling contribution exactly as if the failing category were absent, with
no exception propagating; in the historical path, however, a parse
failure in any present category empties the entire result (all sibling
contributions are dropped), still without propagating an exception. -/
theorem category_isolation_c1 :
    (∀ (u s : String) (st : SummarySettings),
      generateContextualSummary u { st with userStats := .malformed s } =
      generateContextualSummary u { st with userStats := .empty }) ∧
    (∀ (u s : String) (st : SummarySettings),
      generateContextualSummary u { st with infoBox := .malformed s } =
      generateContextualSummary u { st with infoBox := .empty }) ∧
    (∀ (u s : String) (st : SummarySettings),
      generateContextualSummary u { st with characterThoughts := .malformed s } =
      generateContextualSummary u { st with characterThoughts := .empty }) ∧
    (∀ (s u : String) (ib ct : RawTracker) (cfg? : Option TrackerConfigH) (useAll : Bool),
      formatHistoricalTrackerData
        { userStats := .malformed s, infoBox := ib, characterThoughts := ct }
        cfg? u useAll = "") ∧
    (∀ (s u : String) (us ct : RawTracker) (cfg? : Option TrackerConfigH) (useAll : Bool),
      formatHistoricalTrackerData
        { userStats := us, infoBox := .malformed s, characterThoughts := ct }
        cfg? u useAll = "") ∧
    (∀ (s u : String) (us ib : RawTracker) (cfg? : Option TrackerConfigH) (useAll : Bool),
      formatHistoricalTrackerData
        { userStats := us, infoBox := ib, characterThoughts := .malformed s }
        cfg? u useAll = "") := by
  refine ⟨?_, ?_, ?_, ?_, ?_, ?_⟩
  · intro u s st
    simp [generateContextualSummary, formatTrackerDataForContext, trackerInputTruthy]
  · intro u s st
    simp [generateContextualSummary, formatTrackerDataForContext, trackerInputTruthy]
  · intro u s st
    simp [generateContextualSummary, formatTrackerDataForContext, trackerInputTruthy]
  · intro s u ib ct cfg? useAll
    cases cfg? with
    | none => rfl
    | some cfg => simp [formatHistoricalTrackerData, histBody]
  · intro s u us ct cfg? useAll
    cases cfg? with
    | none => rfl
    | some cfg =>
        simp [formatHistoricalTrackerData, histBody, option_bind_const_none]
  · intro s u us ib cfg? useAll
    cases cfg? with
    | none => rfl
    | some cfg =>
        simp [formatHistoricalTrackerData, histBody, option_bind_const_none]

/-- Witness for C9 on a concrete four-field unrecognized object. -/
theorem resolver_total_c9_witness :
    getValue (.vobj [("a", .vnum 1), ("b", .vnum 2), ("c", .vnum 3), ("d", .vnum 4)]) = "" ∧
    getValueH (.vobj [("a", .vnum 1), ("b", .vnum 2), ("c", .vnum 3), ("d", .vnum 4)]) = "" :=
  resolver_total_c9.2.2.2.2.2
    [("a", .vnum 1), ("b", .vnum 2), ("c", .vnum 3), ("d", .vnum 4)]
    rfl rfl rfl rfl rfl rfl (by decide)

/-- C6 counterexample: on the exact window of the claim (snapshot on the
last model turn) the injection map is empty — the last model turn is
excluded from mapping, so the map has no entry at the index of the last
turn. -/
theorem injection_map_example_c6_counterexample :
    buildInjectionMap exampleWindowC6 examplePersistenceC6 (some exampleConfigC6) "User" = [] := by
  decide

/-- C6 (amended): with the snapshot moved to a model turn that is not the
last one (window user, model with snapshot, user, model without), the map
has exactly one entry, keyed at the own index of the snapshot turn, with text that
contains the persisted field hp and no non-persisted field. -/
theorem injection_map_example_c6 :
    buildInjectionMap exampleWindowC6b examplePersistenceC6 (some exampleConfigC6) "User" =
      [(1, "\nContext for that moment:\nUser: HP: 7")] ∧
    containsSub "\nContext for that moment:\nUser: HP: 7" "HP: 7" = true ∧
    containsSub "\nContext for that moment:\nUser: HP: 7" "MP" = false := by
  refine ⟨?_, by decide, by decide⟩
  simp [buildInjectionMap, processMessage, resolveTrackerData, mapAppend, findLastAssistantIdx,
    findPrecUser, exampleWindowC6b, examplePersistenceC6, exampleConfigC6, exampleSnapshotC6,
    formatHistoricalTrackerData, histBody, histUserStats, histInfoBox, histChars, jsDefaultStr,
    jget, lookupKey, truthy, isNullish, idMatches, shouldIncludeStat, shouldInclude,
    statusToField, jsToString, getValueH, jsTrim, jsDropRight, List.enum]
  rfl

theorem findLastAssistantIdx_spec :
    ∀ (msgs : List ChatMessage) (j : Nat), findLastAssistantIdx msgs = some j →
      ∃ mj, msgs.get? j = some mj ∧ mj.is_user = false ∧ mj.is_system = false := by
  intro msgs
  induction msgs with
  | nil => intro j h; simp [findLastAssistantIdx] at h
  | cons msg rest ih =>
    intro j h
    simp only [findLastAssistantIdx] at h
    cases hr : findLastAssistantIdx rest with
    | some j2 =>
        rw [hr] at h
        cases h
        obtain ⟨mj, hg, hu, hs⟩ := ih j2 hr
        exact ⟨mj, by simpa using hg, hu, hs⟩
    | none =>
        rw [hr] at h
        by_cases hc : (!msg.is_user && !msg.is_system) = true
        · rw [if_pos hc] at h
          cases h
          rw [Bool.and_eq_true, Bool.not_eq_true', Bool.not_eq_true'] at hc
          exact ⟨msg, rfl, hc.1, hc.2⟩
        · rw [if_neg hc] at h
          cases h

theorem findPrecUser_spec :
    ∀ (msgs : List ChatMessage) (i j : Nat), findPrecUser msgs i = some j →
      ∃ mj, msgs.get? j = some mj ∧ mj.is_user = true := by
  intro msgs i
  induction i with
  | zero => intro j h; simp [findPrecUser] at h
  | succ n ih =>
    intro j h
    simp only [findPrecUser] at h
    split at h
    · rename_i mj heq
      split at h
      · rename_i hc
        cases h
        rw [Bool.and_eq_true] at hc
        exact ⟨mj, heq, hc.1⟩
      · exact ih j h
    · exact ih j h

theorem mapAppend_all (L : Option Nat) (m : List (Nat × String)) (k : Nat) (v : String)
    (h : m.all (fun kv => !(some kv.1 == L)) = true)
    (hk : (some k == L) = false) :
    (mapAppend m k v).all (fun kv => !(some kv.1 == L)) = true := by
  unfold mapAppend
  split
  · rw [List.all_eq_true] at h ⊢
    intro kv hkv
    rw [List.mem_map] at hkv
    obtain ⟨e, he, rfl⟩ := hkv
    by_cases hek : e.1 = k
    · simp only [hek, if_pos rfl]
      have := h e he
      simpa [hek] using this
    · simp only [if_neg hek]
      exact h e he
  · rw [List.all_append, Bool.and_eq_true]
    refine ⟨h, ?_⟩
    simp [hk]

theorem processMessage_all (msgs : List ChatMessage) (hp : HistoryPersistence)
    (cfg? : Option TrackerConfigH) (userName : String)
    (m : List (Nat × String)) (i : Nat) (msg : ChatMessage)
    (h : m.all (fun kv => !(some kv.1 == findLastAssistantIdx msgs)) = true) :
    (processMessage msgs hp cfg? userName (findLastAssistantIdx msgs) m i msg).all
      (fun kv => !(some kv.1 == findLastAssistantIdx msgs)) = true := by
  simp only [processMessage]
  split
  · exact h
  · split
    · exact h
    · rename_i hni
      split
      · exact h
      · split
        · exact h
        · split
          · exact h
          · rename_i t heq
            apply mapAppend_all _ _ _ _ h
            by_cases hp2 : jsDefaultStr hp.injectionPosition "assistant_message_end" =
                "user_message_end"
            · rw [if_pos hp2] at heq
              obtain ⟨mj, hgj, hu⟩ := findPrecUser_spec msgs i t heq
              cases hL : findLastAssistantIdx msgs with
              | none => simp
              | some L =>
                  obtain ⟨mL, hgL, hLu, _⟩ := findLastAssistantIdx_spec msgs L hL
                  by_cases htL : t = L
                  · subst htL
                    rw [hgj] at hgL
                    cases hgL
                    rw [hu] at hLu
                    cases hLu
                  · simp [htL]
            · rw [if_neg hp2] at heq
              cases heq
              rw [Bool.not_eq_true] at hni
              exact hni

/-- C5: for every transcript window, persistence policy and anchor
setting, no entry of the injection map is keyed by the index of the last
model-authored turn of the window. -/
theorem injection_map_excludes_current_c5 (msgs : List ChatMessage) (hp : HistoryPersistence)
    (cfg? : Option TrackerConfigH) (userName : String) :
    (buildInjectionMap msgs hp cfg? userName).all
      (fun kv => !(some kv.1 == findLastAssistantIdx msgs)) = true := by
  simp only [buildInjectionMap]
  split
  · have main : ∀ (l : List (Nat × ChatMessage)) (m0 : List (Nat × String)),
        m0.all (fun kv => !(some kv.1 == findLastAssistantIdx msgs)) = true →
        (l.foldl (fun m p =>
          processMessage msgs hp cfg? userName (findLastAssistantIdx msgs) m p.1 p.2) m0).all
          (fun kv => !(some kv.1 == findLastAssistantIdx msgs)) = true := by
      intro l
      induction l with
      | nil => intro m0 h; exact h
      | cons p rest ih =>
          intro m0 h
          exact ih _ (processMessage_all msgs hp cfg? userName m0 p.1 p.2 h)
    exact main msgs.enum [] (by simp)
  · simp

/-- C10: whenever the committed payload of at least one enabled category parses
as JSON, generateTrackerExample returns only the unified JSON object built
from the JSON parts; in particular, for concrete inputs with an enabled
legacy-text sibling, the fenced legacy block is suppressed — the output is
the same whatever the legacy text is and never contains it. -/
theorem json_suppresses_legacy_c10 :
    (∀ (sh1 sh2 sh3 : Bool) (us ib ct : CommittedPayload)
        (applyLocks : String → String → String),
      ((sh1 = true ∧ ∃ s, us = .jsonRaw s) ∨ (sh2 = true ∧ ∃ s, ib = .jsonRaw s) ∨
       (sh3 = true ∧ ∃ s, ct = .jsonRaw s)) →
      generateTrackerExample sh1 sh2 sh3 us ib ct applyLocks =
        jsTrim ("\x7b\n" ++ String.intercalate ",\n"
          (trackerJSONParts sh1 sh2 sh3 us ib ct applyLocks) ++ "\n\x7d")) ∧
    generateTrackerExample true true false (.jsonRaw "\x7b\"a\":1\x7d") (.textRaw "LEGACY")
      .absent (fun s _ => s) = "\x7b\n  \"userStats\": \x7b\"a\":1\x7d\n\x7d" ∧
    generateTrackerExample true true false (.jsonRaw "\x7b\"a\":1\x7d") (.textRaw "OTHER")
      .absent (fun s _ => s) = "\x7b\n  \"userStats\": \x7b\"a\":1\x7d\n\x7d" ∧
    containsSub (generateTrackerExample true true false (.jsonRaw "\x7b\"a\":1\x7d")
      (.textRaw "LEGACY") .absent (fun s _ => s)) "LEGACY" = false := by
  refine ⟨?_, by decide, by decide, by decide⟩
  intro sh1 sh2 sh3 us ib ct al h
  have hlen : 0 < (trackerJSONParts sh1 sh2 sh3 us ib ct al).length := by
    rcases h with ⟨h1, s, rfl⟩ | ⟨h2, s, rfl⟩ | ⟨h3, s, rfl⟩ <;>
      subst_vars <;> simp [trackerJSONParts]
  simp only [generateTrackerExample]
  rw [if_pos hlen]

/-- Witness for C10: a single enabled JSON category yields the unified
object form. -/
theorem json_suppresses_legacy_c10_witness :
    generateTrackerExample true false false (.jsonRaw "1") .absent .absent (fun s _ => s) =
      jsTrim ("\x7b\n" ++ String.intercalate ",\n"
        (trackerJSONParts true false false (.jsonRaw "1") .absent .absent (fun s _ => s)) ++
        "\n\x7d") :=
  json_suppresses_legacy_c10.1 true false false (.jsonRaw "1") .absent .absent (fun s _ => s)
    (Or.inl ⟨rfl, "1", rfl⟩)
